import Mathlib

/-!
Verification of the `sms-sender` webhook service (src/main.py).

The program is a Flask app with two POST handlers, `ghostpay_webhook` and
`duckfy_webhook`.  Each validates a JSON payload, normalizes a phone number
to E.164 with a Brazil-specific heuristic, and on a pending PIX payment
attempts a single SMS send through Twilio.

Modelling conventions (shallow embedding):
* Python strings are `List Char` (`PyStr`), one entry per code point;
  `str.isdigit` is modelled by `Char.isDigit` (the ASCII digits, the
  relevant case for phone strings).
* A JSON field read with `data.get(k)` / presence-tested with `k in data`
  is an `Option` field; `none` means the key is absent.
* Handlers are modelled on the JSON path (after the `request.is_json`
  gate, which returns 400 for non-JSON bodies and touches nothing else).
* A handler returns the HTTP response (status code plus the `status`
  string of the JSON body; the free-text `message` bodies are elided)
  together with the list of phone numbers passed to `send_sms`, in order.
  The outcome of the single Twilio call is the external input `smsOk`.
* Log statements, and the dead locals `checkout_link` / `product_name` /
  `amount` / `currency` (computed but never used in the message body or
  response), have no observable effect and are omitted.
-/

abbrev PyStr := List Char

def pyStr (s : String) : PyStr := s.data

/-- `''.join(filter(str.isdigit, raw))` (src/main.py lines 112 and 204). -/
def stripToDigits (s : PyStr) : PyStr := s.filter Char.isDigit

/-- Python `s.startswith('+')`. -/
def startsWithPlus : PyStr → Bool
  | '+' :: _ => true
  | _ => false

/-- Python `s.startswith('55')`. -/
def startsWith55 : PyStr → Bool
  | '5' :: '5' :: _ => true
  | _ => false

/-- Phone normalization inlined in the GhostPay handler
(src/main.py lines 111-123). -/
def ghostpayNormalizePhone (raw : PyStr) : PyStr :=
  let digits := stripToDigits raw
  if startsWithPlus raw then raw
  else if startsWith55 digits ∧ (digits.length = 12 ∨ digits.length = 13) then
    '+' :: digits
  else if digits.length = 10 ∨ digits.length = 11 then
    '+' :: '5' :: '5' :: digits
  else
    '+' :: digits

/-- E.164 sanity check inlined in the GhostPay handler (line 126):
`customer_phone_e164.startswith('+') and len(customer_phone_e164) >= 11`. -/
def ghostpaySanity (e164 : PyStr) : Bool :=
  startsWithPlus e164 && decide (11 ≤ e164.length)

/-- Phone normalization inlined in the Duckfy handler
(src/main.py lines 203-215); the code is a duplicate of the GhostPay one. -/
def duckfyNormalizePhone (raw : PyStr) : PyStr :=
  let digits := stripToDigits raw
  if startsWithPlus raw then raw
  else if startsWith55 digits ∧ (digits.length = 12 ∨ digits.length = 13) then
    '+' :: digits
  else if digits.length = 10 ∨ digits.length = 11 then
    '+' :: '5' :: '5' :: digits
  else
    '+' :: digits

/-- E.164 sanity check inlined in the Duckfy handler (line 217). -/
def duckfySanity (e164 : PyStr) : Bool :=
  startsWithPlus e164 && decide (11 ≤ e164.length)

/-- The `customer` object of a GhostPay payload. -/
structure GhostCustomer where
  phone : Option PyStr
  name : Option PyStr
deriving DecidableEq

/-- A GhostPay webhook JSON body, restricted to the fields the handler
reads.  `customer = some none` models a `customer` key whose value is not
a dict (the `isinstance` check on line 98 rejects it). -/
structure GhostPayload where
  paymentId : Option PyStr
  status : Option PyStr
  paymentMethod : Option PyStr
  customer : Option (Option GhostCustomer)
  totalValue : Option PyStr
deriving DecidableEq

/-- The `transaction` object of a Duckfy payload. -/
structure DuckfyTransaction where
  id : Option PyStr
  status : Option PyStr
  paymentMethod : Option PyStr
  amount : Option PyStr
deriving DecidableEq

/-- The `client` object of a Duckfy payload. -/
structure DuckfyClient where
  phone : Option PyStr
  name : Option PyStr
deriving DecidableEq

/-- A Duckfy webhook JSON body, restricted to the fields the handler reads.
`transaction = none` (resp. `client = none`) models the key being absent or
not a dict: the `isinstance` check on line 174 rejects both the same way. -/
structure DuckfyPayload where
  token : Option PyStr
  transaction : Option DuckfyTransaction
  client : Option DuckfyClient
deriving DecidableEq

/-- The startup configuration read from the environment that the handlers
consult.  `duckfyToken` is `DUCKFY_WEBHOOK_TOKEN_CONFIG` (line 51); `none`
models an unset variable. -/
structure Config where
  duckfyToken : Option PyStr
deriving DecidableEq

/-- An HTTP response: the status code and the `status` field of the JSON
body (`success`, `error` or `ignored`). -/
structure HttpResponse where
  code : Nat
  status : String
deriving DecidableEq

/-- Line 167: `if DUCKFY_WEBHOOK_TOKEN_CONFIG and received_token !=
DUCKFY_WEBHOOK_TOKEN_CONFIG`.  A `None` or empty configured token is falsy
and disables the check. -/
def duckfyTokenRejects (cfg : Config) (received : Option PyStr) : Bool :=
  match cfg.duckfyToken with
  | none => false
  | some t => if t = [] then false else decide (received ≠ some t)

/-- The GhostPay handler (src/main.py lines 77-154), on the JSON path.
Returns the response and the list of phone numbers passed to `send_sms`;
`smsOk` is the result of the single possible `send_sms` call. -/
def ghostpay_webhook (p : GhostPayload) (smsOk : Bool) : HttpResponse × List PyStr :=
  -- lines 90-95: required_fields presence check
  if p.paymentId.isNone || p.status.isNone || p.paymentMethod.isNone ||
     p.customer.isNone || p.totalValue.isNone then
    (⟨400, "error"⟩, [])
  else
    -- lines 97-101: customer must be a dict with a truthy phone
    match p.customer with
    | none => (⟨400, "error"⟩, [])
    | some none => (⟨400, "error"⟩, [])
    | some (some cust) =>
      match cust.phone with
      | none => (⟨400, "error"⟩, [])
      | some ph =>
        if ph = [] then (⟨400, "error"⟩, [])
        else
          -- lines 111-123 normalize into the local customer_phone_e164,
          -- inlined here; lines 126-128: sanity check
          if ghostpaySanity (ghostpayNormalizePhone ph) = false then (⟨400, "error"⟩, [])
          -- lines 132-146: PIX + PENDING sends the reminder
          else if p.paymentMethod = some (pyStr "PIX") ∧ p.status = some (pyStr "PENDING") then
            if smsOk then (⟨200, "success"⟩, [ghostpayNormalizePhone ph])
            else (⟨500, "error"⟩, [ghostpayNormalizePhone ph])
          -- lines 148-150
          else if p.status = some (pyStr "APPROVED") then (⟨200, "success"⟩, [])
          -- lines 152-154
          else (⟨200, "ignored"⟩, [])

/-- The Duckfy handler (src/main.py lines 156-249), on the JSON path. -/
def duckfy_webhook (cfg : Config) (p : DuckfyPayload) (smsOk : Bool) :
    HttpResponse × List PyStr :=
  -- lines 166-169: shared-token check
  if duckfyTokenRejects cfg p.token then (⟨403, "error"⟩, [])
  else
    -- lines 171-176: transaction and client must be dicts
    match p.transaction, p.client with
    | some tx, some cl =>
      -- lines 178-183: required transaction fields presence check
      if tx.id.isNone || tx.status.isNone || tx.paymentMethod.isNone ||
         tx.amount.isNone then
        (⟨400, "error"⟩, [])
      else
        -- lines 185-188: phone key must be present (any value passes)
        match cl.phone with
        | none => (⟨400, "error"⟩, [])
        | some ph =>
          -- lines 203-215 normalize into the local customer_phone_e164,
          -- inlined here; lines 217-219: sanity check
          if duckfySanity (duckfyNormalizePhone ph) = false then (⟨400, "error"⟩, [])
          -- lines 223-225: only PIX is processed
          else if tx.paymentMethod ≠ some (pyStr "PIX") then (⟨200, "ignored"⟩, [])
          -- lines 227-241: pending PIX sends the reminder
          else if tx.status = some (pyStr "PENDING") then
            if smsOk then (⟨200, "success"⟩, [duckfyNormalizePhone ph])
            else (⟨500, "error"⟩, [duckfyNormalizePhone ph])
          -- lines 243-245
          else if tx.status = some (pyStr "COMPLETED") then (⟨200, "success"⟩, [])
          -- lines 247-249
          else (⟨200, "ignored"⟩, [])
    | _, _ => (⟨400, "error"⟩, [])

/-! ### Spec-side definitions and accessors -/

/-- The normalization rule exactly as the specification words it: strip to
digits; if the original string starts with `+`, return it unchanged; else
if the digit count is 12 or 13 and the digits start with `55`, prefix `+`;
else if the digit count is 10 or 11, prefix `+55`; otherwise prefix `+` to
the digits. -/
def specPhoneRule (s : PyStr) : PyStr :=
  let digits := s.filter Char.isDigit
  if startsWithPlus s then s
  else if (digits.length = 12 ∨ digits.length = 13) ∧ startsWith55 digits then
    '+' :: digits
  else if digits.length = 10 ∨ digits.length = 11 then
    '+' :: '5' :: '5' :: digits
  else
    '+' :: digits

/-- The phone string carried by a GhostPay payload, when the payload has
one (a `customer` dict with a `phone` key). -/
def GhostPayload.phoneField (p : GhostPayload) : Option PyStr :=
  match p.customer with
  | some (some c) => c.phone
  | _ => none

/-- The phone string carried by a Duckfy payload, when the payload has one
(a `client` dict with a `phone` key). -/
def DuckfyPayload.phoneField (p : DuckfyPayload) : Option PyStr :=
  match p.client with
  | some c => c.phone
  | _ => none

/-- A GhostPay payload passes every gate before the status/method routing:
all required fields present, `customer` a dict with a truthy phone, and the
normalized phone passes the E.164 sanity check. -/
def ghostpayReachesRouting (p : GhostPayload) : Bool :=
  match p.paymentId, p.status, p.paymentMethod, p.customer, p.totalValue with
  | some _, some _, some _, some (some c), some _ =>
    match c.phone with
    | some ph => decide (ph ≠ []) && ghostpaySanity (ghostpayNormalizePhone ph)
    | none => false
  | _, _, _, _, _ => false

/-- A Duckfy payload passes every gate before the status/method routing
under configuration `cfg`: token accepted, `transaction` and `client`
dicts, required transaction fields present, `phone` key present, and the
normalized phone passes the E.164 sanity check. -/
def duckfyReachesRouting (cfg : Config) (p : DuckfyPayload) : Bool :=
  !duckfyTokenRejects cfg p.token &&
  match p.transaction, p.client with
  | some tx, some cl =>
    tx.id.isSome && tx.status.isSome && tx.paymentMethod.isSome && tx.amount.isSome &&
    match cl.phone with
    | some ph => duckfySanity (duckfyNormalizePhone ph)
    | none => false
  | _, _ => false

/-- The GhostPay routing table as the code implements it, written
spec-side: PIX and PENDING attempts the one SMS send (200 on success, 500
on failure); else status APPROVED is a 200 success no-op; every other case
is a 200 ignored no-op. -/
def ghostpayRoutingTable (p : GhostPayload) (smsOk : Bool) : HttpResponse × List PyStr :=
  let e164 := ghostpayNormalizePhone ((p.phoneField).getD [])
  if p.paymentMethod = some (pyStr "PIX") ∧ p.status = some (pyStr "PENDING") then
    (if smsOk then ⟨200, "success"⟩ else ⟨500, "error"⟩, [e164])
  else if p.status = some (pyStr "APPROVED") then (⟨200, "success"⟩, [])
  else (⟨200, "ignored"⟩, [])

/-- The Duckfy routing table as the code implements it, written spec-side:
any non-PIX method is a 200 ignored no-op; PIX and PENDING attempts the one
SMS send (200 on success, 500 on failure); PIX and COMPLETED is a 200
success no-op; every other case is a 200 ignored no-op. -/
def duckfyRoutingTable (p : DuckfyPayload) (smsOk : Bool) : HttpResponse × List PyStr :=
  let e164 := duckfyNormalizePhone ((p.phoneField).getD [])
  let method := (p.transaction.map (·.paymentMethod)).getD none
  let status := (p.transaction.map (·.status)).getD none
  if method ≠ some (pyStr "PIX") then (⟨200, "ignored"⟩, [])
  else if status = some (pyStr "PENDING") then
    (if smsOk then ⟨200, "success"⟩ else ⟨500, "error"⟩, [e164])
  else if status = some (pyStr "COMPLETED") then (⟨200, "success"⟩, [])
  else (⟨200, "ignored"⟩, [])

/-! ### Concrete payloads used by witnesses and counterexamples -/

/-- A validly-shaped GhostPay payload: pending PIX, local-format phone. -/
def gpPix : GhostPayload :=
  { paymentId := some (pyStr "pay1")
    status := some (pyStr "PENDING")
    paymentMethod := some (pyStr "PIX")
    customer := some (some { phone := some (pyStr "11999999999"), name := some (pyStr "Ana") })
    totalValue := some (pyStr "100") }

/-- A validly-shaped GhostPay payload whose status is COMPLETED (card). -/
def gpCompleted : GhostPayload :=
  { paymentId := some (pyStr "pay2")
    status := some (pyStr "COMPLETED")
    paymentMethod := some (pyStr "CREDIT_CARD")
    customer := some (some { phone := some (pyStr "11999999999"), name := some (pyStr "Ana") })
    totalValue := some (pyStr "100") }

/-- A validly-shaped Duckfy payload: pending PIX, local-format phone. -/
def dfPix : DuckfyPayload :=
  { token := none
    transaction := some { id := some (pyStr "tx1"), status := some (pyStr "PENDING"),
                          paymentMethod := some (pyStr "PIX"), amount := some (pyStr "100") }
    client := some { phone := some (pyStr "11999999999"), name := some (pyStr "Bia") } }

/-- A Duckfy payload with a wrong token and a phone too short to pass the
sanity check. -/
def dfBadTokenShortPhone : DuckfyPayload :=
  { token := some (pyStr "wrong")
    transaction := some { id := some (pyStr "tx2"), status := some (pyStr "PENDING"),
                          paymentMethod := some (pyStr "PIX"), amount := some (pyStr "100") }
    client := some { phone := some (pyStr "123"), name := none } }

/-- A validly-shaped GhostPay payload with a phone that fails the sanity
check after normalization. -/
def gpShortPhone : GhostPayload :=
  { paymentId := some (pyStr "pay3")
    status := some (pyStr "PENDING")
    paymentMethod := some (pyStr "PIX")
    customer := some (some { phone := some (pyStr "123"), name := none })
    totalValue := some (pyStr "100") }

/-! ### Helper lemmas on the normalization -/

/-- The two inlined normalizations are the same code, hence the same
function. -/
theorem duckfyNormalizePhone_eq_ghost :
    duckfyNormalizePhone = ghostpayNormalizePhone := rfl

/-- The two inlined sanity checks are the same code, hence the same
function. -/
theorem duckfySanity_eq_ghost : duckfySanity = ghostpaySanity := rfl

theorem ghostpayNormalizePhone_eq_spec (s : PyStr) :
    ghostpayNormalizePhone s = specPhoneRule s := by
  unfold ghostpayNormalizePhone specPhoneRule stripToDigits
  by_cases h1 : startsWithPlus s = true
  · simp [h1]
  · by_cases h2 : startsWith55 (s.filter Char.isDigit) = true <;>
    by_cases h3 : (s.filter Char.isDigit).length = 12 ∨ (s.filter Char.isDigit).length = 13 <;>
      simp [h1, h2, h3]

theorem startsWithPlus_cons (l : PyStr) : startsWithPlus ('+' :: l) = true := rfl

theorem startsWithPlus_ghost_norm (s : PyStr) :
    startsWithPlus (ghostpayNormalizePhone s) = true := by
  unfold ghostpayNormalizePhone
  by_cases h1 : startsWithPlus s = true
  · simp [h1]
  · by_cases h2 : startsWith55 (stripToDigits s) = true ∧
        ((stripToDigits s).length = 12 ∨ (stripToDigits s).length = 13) <;>
    by_cases h3 : (stripToDigits s).length = 10 ∨ (stripToDigits s).length = 11 <;>
      simp [h1, h2, h3, startsWithPlus_cons]

theorem ghost_norm_fixed (y : PyStr) (h : startsWithPlus y = true) :
    ghostpayNormalizePhone y = y := by
  unfold ghostpayNormalizePhone
  simp [h]

/-! ### Claim theorems -/

/-- C1: for every phone string input, the normalization used by both
webhook handlers computes exactly the stated rule: strip to digits; keep a
string that already starts with `+` unchanged; if the digit count is 12 or
13 and the digits start with `55`, prefix `+`; if the digit count is 10 or
11, prefix `+55`; otherwise fall back to prefixing `+` to the digits. -/
theorem phone_normalization_matches_spec (s : PyStr) :
    ghostpayNormalizePhone s = specPhoneRule s ∧
    duckfyNormalizePhone s = specPhoneRule s := by
  refine ⟨ghostpayNormalizePhone_eq_spec s, ?_⟩
  rw [duckfyNormalizePhone_eq_ghost]
  exact ghostpayNormalizePhone_eq_spec s

/-- C7: the phone normalization and E.164 sanity check duplicated in the
two handlers are extensionally equal: on every input they produce the same
normalized string and the same accept/reject decision. -/
theorem handlers_phone_logic_agree (s : PyStr) :
    ghostpayNormalizePhone s = duckfyNormalizePhone s ∧
    ghostpaySanity (ghostpayNormalizePhone s) = duckfySanity (duckfyNormalizePhone s) :=
  ⟨rfl, rfl⟩

/-- C10: every output of the normalization (in either handler) starts with
`+`, and the normalization is idempotent: applied to its own output it
returns that output unchanged. -/
theorem normalization_idempotent (s : PyStr) :
    startsWithPlus (ghostpayNormalizePhone s) = true ∧
    ghostpayNormalizePhone (ghostpayNormalizePhone s) = ghostpayNormalizePhone s ∧
    startsWithPlus (duckfyNormalizePhone s) = true ∧
    duckfyNormalizePhone (duckfyNormalizePhone s) = duckfyNormalizePhone s := by
  have h := startsWithPlus_ghost_norm s
  refine ⟨h, ghost_norm_fixed _ h, ?_, ?_⟩ <;> rw [duckfyNormalizePhone_eq_ghost]
  · exact h
  · exact ghost_norm_fixed _ h

theorem duckfy_no403_of_token_ok (cfg : Config) (p : DuckfyPayload) (smsOk : Bool)
    (h : duckfyTokenRejects cfg p.token = false) :
    (duckfy_webhook cfg p smsOk).1.code ≠ 403 := by
  unfold duckfy_webhook
  simp only [h, Bool.false_eq_true, if_false]
  repeat' split
  all_goals simp

/-- C8: when `DUCKFY_WEBHOOK_TOKEN` is unset (or set to the empty string)
the Duckfy handler performs no token verification: whatever the payload
holds in its `token` field, the response is never HTTP 403. -/
theorem no_token_config_no_403 (p : DuckfyPayload) (smsOk : Bool) :
    (duckfy_webhook ⟨none⟩ p smsOk).1.code ≠ 403 ∧
    (duckfy_webhook ⟨some []⟩ p smsOk).1.code ≠ 403 :=
  ⟨duckfy_no403_of_token_ok ⟨none⟩ p smsOk rfl,
   duckfy_no403_of_token_ok ⟨some []⟩ p smsOk rfl⟩

/-- C4: the Duckfy handler verifies authenticity by a plain shared-token
equality compare: when a non-empty token is configured and the payload's
`token` field differs from it, the handler answers 403 and attempts
nothing else (in particular no SMS); when the token check does not fire,
processing continues and the response is never 403. -/
theorem duckfy_token_gate (cfg : Config) (p : DuckfyPayload) (smsOk : Bool) :
    (∀ t, cfg.duckfyToken = some t → t ≠ [] → p.token ≠ some t →
      duckfy_webhook cfg p smsOk = (⟨403, "error"⟩, [])) ∧
    (duckfyTokenRejects cfg p.token = false →
      (duckfy_webhook cfg p smsOk).1.code ≠ 403) := by
  constructor
  · intro t hcfg ht hne
    have hrej : duckfyTokenRejects cfg p.token = true := by
      unfold duckfyTokenRejects
      rw [hcfg]
      simp [ht, hne]
    unfold duckfy_webhook
    simp [hrej]
  · exact duckfy_no403_of_token_ok cfg p smsOk

/-- Witness for C4: a configured token `secret` and a payload carrying
`wrong` make the handler answer 403 with no SMS attempt. -/
theorem duckfy_token_gate_witness :
    duckfy_webhook ⟨some (pyStr "secret")⟩ dfBadTokenShortPhone true = (⟨403, "error"⟩, []) :=
  (duckfy_token_gate ⟨some (pyStr "secret")⟩ dfBadTokenShortPhone true).1
    (pyStr "secret") rfl (by decide) (by decide)

/-- Counterexample to C2 as stated: `gpCompleted` is a validly-shaped
GhostPay payload with status `COMPLETED`, yet the GhostPay handler answers
`ignored`, not the claimed 200 success. -/
theorem status_routing_cex :
    gpCompleted.status = some (pyStr "COMPLETED") ∧
    (ghostpay_webhook gpCompleted true).1 = ⟨200, "ignored"⟩ ∧
    (ghostpay_webhook gpCompleted true).1.status ≠ "success" := by
  refine ⟨rfl, by decide, by decide⟩

theorem ghostpay_routing_eq (p : GhostPayload) (smsOk : Bool)
    (hp : ghostpayReachesRouting p = true) :
    ghostpay_webhook p smsOk = ghostpayRoutingTable p smsOk := by
  unfold ghostpayReachesRouting at hp
  split at hp
  case _ pid st pm c tv h1 h2 h3 h4 h5 =>
    split at hp
    case _ ph hph =>
      rw [Bool.and_eq_true, decide_eq_true_eq] at hp
      obtain ⟨hne, hok⟩ := hp
      unfold ghostpay_webhook ghostpayRoutingTable GhostPayload.phoneField
      cases smsOk <;> simp [h1, h2, h3, h4, h5, hph, hne, hok]
    case _ hph => exact absurd hp (by simp)
  case _ => exact absurd hp (by simp)

theorem duckfy_routing_eq (cfg : Config) (q : DuckfyPayload) (smsOk : Bool)
    (hq : duckfyReachesRouting cfg q = true) :
    duckfy_webhook cfg q smsOk = duckfyRoutingTable q smsOk := by
  unfold duckfyReachesRouting at hq
  rw [Bool.and_eq_true, Bool.not_eq_eq_eq_not, Bool.not_true] at hq
  obtain ⟨htok, hq⟩ := hq
  split at hq
  case _ tx cl htx hcl =>
    simp only [Bool.and_eq_true] at hq
    obtain ⟨⟨⟨⟨hid, hst⟩, hpm⟩, ham⟩, hq⟩ := hq
    split at hq
    case _ ph hph =>
      rw [Option.isSome_iff_ne_none] at hid hst hpm ham
      unfold duckfy_webhook duckfyRoutingTable DuckfyPayload.phoneField
      cases smsOk <;> simp [htok, htx, hcl, hph, hid, hst, hpm, ham, hq]
    case _ hph => exact absurd hq (by simp)
  case _ => exact absurd hq (by simp)

/-- C2 amended: for every payload that passes all the gates before the
status/method routing (shape validation, phone sanity check and, for
Duckfy, the token check), the handlers implement per-handler tables.
GhostPay: PIX with PENDING attempts the SMS send; else APPROVED is a 200
success no-op; everything else (including COMPLETED) is a 200 ignored
no-op.  Duckfy: any non-PIX method is a 200 ignored no-op (even APPROVED
or COMPLETED); PIX with PENDING attempts the SMS send; PIX with COMPLETED
is a 200 success no-op; everything else (including PIX APPROVED) is a 200
ignored no-op. -/
theorem status_routing_amended (p : GhostPayload) (cfg : Config) (q : DuckfyPayload)
    (smsOk : Bool)
    (hp : ghostpayReachesRouting p = true) (hq : duckfyReachesRouting cfg q = true) :
    ghostpay_webhook p smsOk = ghostpayRoutingTable p smsOk ∧
    duckfy_webhook cfg q smsOk = duckfyRoutingTable q smsOk :=
  ⟨ghostpay_routing_eq p smsOk hp, duckfy_routing_eq cfg q smsOk hq⟩

/-- Witness for C2 amended: concrete pending-PIX payloads route through
the tables. -/
theorem status_routing_amended_witness :
    ghostpay_webhook gpPix true = ghostpayRoutingTable gpPix true ∧
    duckfy_webhook ⟨none⟩ dfPix true = duckfyRoutingTable dfPix true :=
  status_routing_amended gpPix ⟨none⟩ dfPix true (by decide) (by decide)

/-- Counterexample to C3 as stated: `dfBadTokenShortPhone` carries a phone
field whose normalization fails the sanity check, yet under a configured
token `secret` the Duckfy handler answers 403, not the claimed 400 (the
token check precedes the phone check). -/
theorem phone_reject_cex :
    dfBadTokenShortPhone.phoneField = some (pyStr "123") ∧
    duckfySanity (duckfyNormalizePhone (pyStr "123")) = false ∧
    (duckfy_webhook ⟨some (pyStr "secret")⟩ dfBadTokenShortPhone true).1.code = 403 ∧
    (duckfy_webhook ⟨some (pyStr "secret")⟩ dfBadTokenShortPhone true).1.code ≠ 400 :=
  ⟨rfl, by decide, by decide, by decide⟩

theorem ghostpay_badphone_400 (p : GhostPayload) (smsOk : Bool) (ph : PyStr)
    (hp : p.phoneField = some ph)
    (hpf : ghostpaySanity (ghostpayNormalizePhone ph) = false) :
    ghostpay_webhook p smsOk = (⟨400, "error"⟩, []) := by
  unfold GhostPayload.phoneField at hp
  split at hp
  case _ c heq =>
    unfold ghostpay_webhook
    rw [heq]
    split
    · rfl
    · simp only [hp]
      split
      · rfl
      · simp [hpf]
  case _ => simp at hp

theorem duckfy_badphone_resp (cfg : Config) (q : DuckfyPayload) (smsOk : Bool) (ph : PyStr)
    (hq : q.phoneField = some ph)
    (hqf : duckfySanity (duckfyNormalizePhone ph) = false) :
    duckfy_webhook cfg q smsOk =
      (⟨if duckfyTokenRejects cfg q.token then 403 else 400, "error"⟩, []) := by
  unfold DuckfyPayload.phoneField at hq
  split at hq
  case _ cl heq =>
    unfold duckfy_webhook
    by_cases htok : duckfyTokenRejects cfg q.token = true
    · simp [htok]
    · rw [Bool.not_eq_true] at htok
      simp only [htok, Bool.false_eq_true, if_false]
      split
      · rename_i tx cl2 htx hcl2
        rw [heq] at hcl2
        injection hcl2 with hcl2
        subst hcl2
        split
        · rfl
        · simp only [hq]
          simp [hqf]
      · rfl
  case _ => simp at hq

/-- C3 amended: whenever a payload carries a phone field whose normalized
form fails the E.164 sanity check, no SMS send is attempted and GhostPay
answers 400; Duckfy likewise answers 400 except that a configured,
mismatching shared token makes it answer 403 first. -/
theorem phone_reject_amended (p : GhostPayload) (cfg : Config) (q : DuckfyPayload)
    (smsOk : Bool) (ph qh : PyStr)
    (hp : p.phoneField = some ph)
    (hpf : ghostpaySanity (ghostpayNormalizePhone ph) = false)
    (hq : q.phoneField = some qh)
    (hqf : duckfySanity (duckfyNormalizePhone qh) = false) :
    ghostpay_webhook p smsOk = (⟨400, "error"⟩, []) ∧
    duckfy_webhook cfg q smsOk =
      (⟨if duckfyTokenRejects cfg q.token then 403 else 400, "error"⟩, []) :=
  ⟨ghostpay_badphone_400 p smsOk ph hp hpf,
   duckfy_badphone_resp cfg q smsOk qh hq hqf⟩

/-- Witness for C3 amended: a too-short phone `123` is rejected with 400
by both handlers (no token configured) and no SMS is attempted. -/
theorem phone_reject_amended_witness :
    ghostpay_webhook gpShortPhone true = (⟨400, "error"⟩, []) ∧
    duckfy_webhook ⟨none⟩ { dfBadTokenShortPhone with token := none } true =
      (⟨if duckfyTokenRejects ⟨none⟩ none then 403 else 400, "error"⟩, []) :=
  phone_reject_amended gpShortPhone ⟨none⟩ { dfBadTokenShortPhone with token := none }
    true (pyStr "123") (pyStr "123") rfl (by decide) rfl (by decide)

/-- Counterexample to C5 as stated: on the very same payload and
configuration the GhostPay handler answers 200 when the external SMS send
succeeds and 500 when it fails, so the response is not a function of
payload and startup configuration alone. -/
theorem stateless_cex :
    (ghostpay_webhook gpPix true).1 = ⟨200, "success"⟩ ∧
    (ghostpay_webhook gpPix false).1 = ⟨500, "error"⟩ ∧
    ghostpay_webhook gpPix true ≠ ghostpay_webhook gpPix false :=
  ⟨by decide, by decide, by decide⟩

/-- C5 amended: the handlers keep no mutable state and are deterministic
in payload, configuration and the outcome of the single external SMS send:
which sends are attempted never depends on that outcome, and whenever no
send is attempted the whole response is independent of it. -/
theorem stateless_amended (p : GhostPayload) (cfg : Config) (q : DuckfyPayload)
    (ok ok' : Bool) :
    (ghostpay_webhook p ok).2 = (ghostpay_webhook p ok').2 ∧
    (duckfy_webhook cfg q ok).2 = (duckfy_webhook cfg q ok').2 ∧
    ((ghostpay_webhook p ok).2 = [] → ghostpay_webhook p ok = ghostpay_webhook p ok') ∧
    ((duckfy_webhook cfg q ok).2 = [] → duckfy_webhook cfg q ok = duckfy_webhook cfg q ok') := by
  refine ⟨?_, ?_, ?_, ?_⟩
  · unfold ghostpay_webhook
    repeat' split
    all_goals rfl
  · unfold duckfy_webhook
    repeat' split
    all_goals rfl
  · unfold ghostpay_webhook
    repeat' split
    all_goals simp
  · unfold duckfy_webhook
    repeat' split
    all_goals simp

/-- Witness for C5 amended: on a payload that attempts no send, the
response is the same whatever the SMS outcome would have been. -/
theorem stateless_amended_witness :
    ghostpay_webhook gpCompleted true = ghostpay_webhook gpCompleted false :=
  (stateless_amended gpCompleted ⟨none⟩ dfPix true false).2.2.1 (by decide)

/-- C6: on every request that reaches the PIX + PENDING branch, exactly
one SMS send is attempted; when that single send fails the handler answers
HTTP 500 (the send list still has exactly one entry, so no second attempt
is made within the request). -/
theorem single_send_attempt (p : GhostPayload) (cfg : Config) (q : DuckfyPayload)
    (hp : ghostpayReachesRouting p = true)
    (hpm : p.paymentMethod = some (pyStr "PIX")) (hps : p.status = some (pyStr "PENDING"))
    (hq : duckfyReachesRouting cfg q = true)
    (hqm : (q.transaction.map (·.paymentMethod)).getD none = some (pyStr "PIX"))
    (hqs : (q.transaction.map (·.status)).getD none = some (pyStr "PENDING")) :
    (∀ ok, (ghostpay_webhook p ok).2.length = 1 ∧ (duckfy_webhook cfg q ok).2.length = 1) ∧
    (ghostpay_webhook p false).1 = ⟨500, "error"⟩ ∧
    (duckfy_webhook cfg q false).1 = ⟨500, "error"⟩ := by
  have hg : ∀ ok, ghostpay_webhook p ok = ghostpayRoutingTable p ok :=
    fun ok => ghostpay_routing_eq p ok hp
  have hd : ∀ ok, duckfy_webhook cfg q ok = duckfyRoutingTable q ok :=
    fun ok => duckfy_routing_eq cfg q ok hq
  refine ⟨fun ok => ⟨?_, ?_⟩, ?_, ?_⟩ <;>
    simp [hg, hd, ghostpayRoutingTable, duckfyRoutingTable, hpm, hps, hqm, hqs]

/-- Witness for C6: on the concrete pending-PIX payloads a failing send
yields 500 from both handlers. -/
theorem single_send_attempt_witness :
    (ghostpay_webhook gpPix false).1 = ⟨500, "error"⟩ ∧
    (duckfy_webhook ⟨none⟩ dfPix false).1 = ⟨500, "error"⟩ :=
  (single_send_attempt gpPix ⟨none⟩ dfPix (by decide) rfl rfl (by decide) rfl rfl).2

/-- C9: invariant at the SMS boundary: every phone number string a handler
passes to `send_sms` starts with `+` and is at least 11 characters long,
because the sanity check guards every call site. -/
theorem sms_boundary_invariant (p : GhostPayload) (cfg : Config) (q : DuckfyPayload)
    (ok : Bool) (ph : PyStr) :
    (ph ∈ (ghostpay_webhook p ok).2 → startsWithPlus ph = true ∧ 11 ≤ ph.length) ∧
    (ph ∈ (duckfy_webhook cfg q ok).2 → startsWithPlus ph = true ∧ 11 ≤ ph.length) := by
  constructor
  · intro hmem
    unfold ghostpay_webhook at hmem
    repeat' split at hmem
    all_goals simp_all [ghostpaySanity]
  · intro hmem
    unfold duckfy_webhook at hmem
    repeat' split at hmem
    all_goals simp_all [duckfySanity]

/-- Witness for C9: the phone actually sent for `gpPix` satisfies the
invariant. -/
theorem sms_boundary_invariant_witness :
    startsWithPlus (pyStr "+5511999999999") = true ∧ 11 ≤ (pyStr "+5511999999999").length :=
  (sms_boundary_invariant gpPix ⟨none⟩ dfPix true (pyStr "+5511999999999")).1 (by decide)

/-- Witness for C8: with no configured token, a payload with no `token`
field is processed without ever answering 403. -/
theorem no_token_config_no_403_witness :
    ¬(duckfy_webhook ⟨none⟩ dfPix true).1.code = 403 :=
  (no_token_config_no_403 dfPix true).1
